import Mathlib

/-!
Verification development for the SMSwithoutBorders vault gRPC entity service.

The definitions below are a shallow embedding of `src/grpc_entity_service.py`
and `src/device_id.py`.  The relational store (`src.entity`, `src.tokens`) is
embedded as explicit lists of records; the helper modules that are not part of
the checked sources (`src.crypto`, `src.utils`, `src.otp_service`,
`src.long_lived_token`) are modelled from the spec as abstract deterministic
functions collected in an environment record, over which all theorems
quantify.
-/

/-- gRPC status codes used by the service. -/
inductive StatusCode where
  | OK
  | INVALID_ARGUMENT
  | UNAUTHENTICATED
  | NOT_FOUND
  | ALREADY_EXISTS
  | FAILED_PRECONDITION
  | UNIMPLEMENTED
  | INTERNAL
  deriving DecidableEq, Repr

/-- The observable outcome of `error_response`: the gRPC status code set on the
context, the user-visible detail string (`context.set_details`), and the
server-side log message. -/
structure ErrorInfo where
  status : StatusCode
  user_msg : String
  sys_msg : String
  deriving DecidableEq, Repr

/-- `error_response(context, response, sys_msg, status_code, user_msg=None)`:
when no user message is given the system message is surfaced verbatim. -/
def error_response (sys_msg : String) (status : StatusCode)
    (user_msg : Option String) : ErrorInfo :=
  { status := status, user_msg := user_msg.getD sys_msg, sys_msg := sys_msg }

/-- One row of the `Entity` table (fields used by the service handlers).
Ciphertexts and serialized keypair blobs are opaque strings. -/
structure Entity where
  eid : String
  phone_number_hash : String
  password_hash : String
  country_code : String
  device_id : Option String
  client_publish_pub_key : String
  client_device_id_pub_key : String
  publish_keypair : String
  device_id_keypair : String
  server_state : Option String
  deriving DecidableEq, Repr

/-- One row of the `EntityToken` table, keyed on
`(entity, platform, account_identifier_hash)`. -/
structure EntityToken where
  entity_eid : String
  platform : String
  account_identifier_hash : String
  account_identifier : String
  account_tokens : String
  deriving DecidableEq, Repr

/-- The persistent store: entity rows and token rows. -/
structure VaultState where
  entities : List Entity
  tokens : List EntityToken
  deriving DecidableEq, Repr

/-- Decoded long-lived-token payload; `eid` is `payload.get("eid")`, absent
when the JSON object carries no `eid` key. -/
structure LltPayload where
  eid : Option String
  deriving DecidableEq, Repr

/-- Modelled from the spec: the interfaces of the repository modules that are
not under the checked sources (`src.crypto`, `src.utils`, `src.otp_service`,
`src.long_lived_token`, the keystore) abstracted as deterministic functions.
`hmacHash` is `generate_hmac(HASHING_KEY, ·)`, `encrypt`/`decrypt` are
`encrypt_and_encode`/`decrypt_and_decode`, `agree` combines
`load_keypair_object` with `.agree` on a base64 client key, `verifyLlt` is
`verify_llt`, `genLlt` is `generate_llt`, `genKeypair` is
`generate_keypair_and_public_key` on a keystore path, `computeDeviceIdStr` is
`compute_device_id` at the string level, and `otpSend`/`otpVerify` are the
OTP gateway. -/
structure Env where
  hmacHash : String → String
  encrypt : String → String
  decrypt : String → String
  isValidPub : String → Option String
  agree : String → String → String
  verifyLlt : String → String → Except String LltPayload
  genLlt : String → String → String
  genKeypair : String → String × String
  computeDeviceIdStr : String → String → String → String
  otpSend : String → Bool × String × Nat
  otpVerify : String → String → Bool × String
  generateEid : String → String

/-- `"sep".join(l)` as Python's `str.join`. -/
def joinSep (sep : String) : List String → String
  | [] => ""
  | [x] => x
  | x :: y :: rest => x ++ sep ++ joinSep sep (y :: rest)

/-- A required field passed to `validate_request_fields`: either a single
field name or a tuple of alternatives. -/
inductive ReqField where
  | single (name : String)
  | alt (names : List String)
  deriving DecidableEq, Repr

/-- The `missing_fields` list computed by `validate_request_fields`: a single
field is missing when falsy (empty), a tuple when all alternatives are falsy;
a missing tuple is reported as `(a or b)`. -/
def missingFields (get : String → String) : List ReqField → List String
  | [] => []
  | ReqField.single n :: rest =>
      (if get n = "" then [n] else []) ++ missingFields get rest
  | ReqField.alt ns :: rest =>
      (if ns.all (fun n => get n = "") then ["(" ++ joinSep " or " ns ++ ")"] else [])
        ++ missingFields get rest

/-- The X25519 field names singled out by `validate_request_fields`. -/
def x25519_fields : List String :=
  ["client_publish_pub_key", "client_device_id_pub_key"]

/-- The `invalid_fields` mapping: for every X25519 field among the required
single fields, the validation error returned by
`is_valid_x25519_public_key`, if any. -/
def invalidPubFields (isValidPub : String → Option String) (get : String → String)
    (required : List ReqField) : List (String × String) :=
  x25519_fields.filterMap (fun f =>
    if required.contains (ReqField.single f) then
      (isValidPub (get f)).map (fun e => (f, e))
    else none)

/-- Python `str` of a dict with string keys and values. -/
def pyStrDict (kvs : List (String × String)) : String :=
  "\x7b" ++
    joinSep ", " (kvs.map (fun kv =>
      "\x27" ++ kv.1 ++ "\x27: \x27" ++ kv.2 ++ "\x27")) ++
  "\x7d"

/-- `validate_request_fields`: reports missing fields, then X25519 validity of
the required public-key fields; `none` when the request is valid. -/
def validate_request_fields (isValidPub : String → Option String)
    (get : String → String) (required : List ReqField) : Option ErrorInfo :=
  let missing := missingFields get required
  if missing ≠ [] then
    some (error_response ("Missing required fields: " ++ joinSep ", " missing)
      StatusCode.INVALID_ARGUMENT none)
  else
    let invalid := invalidPubFields isValidPub get required
    if invalid ≠ [] then
      some (error_response ("Invalid fields: " ++ pyStrDict invalid)
        StatusCode.INVALID_ARGUMENT none)
    else none

/-- `find_entity(phone_number_hash=h)`. -/
def find_entity_by_phone_hash (st : VaultState) (h : String) : Option Entity :=
  st.entities.find? (fun e => e.phone_number_hash == h)

/-- `find_entity(eid=e)`. -/
def find_entity_by_eid (st : VaultState) (eid : String) : Option Entity :=
  st.entities.find? (fun e => e.eid == eid)

/-- `find_entity(device_id=d)`. -/
def find_entity_by_device_id (st : VaultState) (d : String) : Option Entity :=
  st.entities.find? (fun e => e.device_id == some d)

/-- `fetch_entity_tokens(entity, platform=, account_identifier_hash=)`. -/
def fetch_entity_tokens (st : VaultState) (ent : Entity)
    (platform account_identifier_hash : String) : List EntityToken :=
  st.tokens.filter (fun t =>
    t.entity_eid == ent.eid && t.platform == platform &&
      t.account_identifier_hash == account_identifier_hash)

/-- `fetch_entity_tokens(entity, fetch_all=True)`. -/
def fetch_entity_tokens_all (st : VaultState) (ent : Entity) : List EntityToken :=
  st.tokens.filter (fun t => t.entity_eid == ent.eid)

/-- Replace the stored row of an entity (a loaded record's `.save()`). -/
def update_entity (st : VaultState) (e : Entity) : VaultState :=
  { st with entities := st.entities.map (fun x => if x.eid == e.eid then e else x) }

/-- The generic user message for every long-lived-token failure. -/
def genericSessionMsg : String :=
  "Your session has expired or the token is invalid. " ++
  "Please log in again to generate a new token."

/-- `create_error_response` inside `verify_long_lived_token`: always
`UNAUTHENTICATED` with the generic session message. -/
def lltErrorResponse (sys : String) : ErrorInfo :=
  error_response sys StatusCode.UNAUTHENTICATED (some genericSessionMsg)

/-- Scan for the first colon, accumulating the reversed prefix. -/
def splitFirstColonAux : List Char → List Char → Option (String × String)
  | _, [] => none
  | acc, c :: rest =>
      if c = ':' then some (String.mk acc.reverse, String.mk rest)
      else splitFirstColonAux (c :: acc) rest

/-- Python's `s.split(":", 1)` unpacked into two parts; `none` when the string
has no colon (the `ValueError` path). -/
def splitFirstColon (s : String) : Option (String × String) :=
  splitFirstColonAux [] s.data

/-- `verify_long_lived_token`: split the wire form on the first `:`, look up
the entity by the outer eid, recompute the device-id shared key, verify the
token, and reject when the payload eid differs from the outer eid. -/
def verify_long_lived_token (env : Env) (st : VaultState)
    (long_lived_token : String) : Except ErrorInfo Entity :=
  match splitFirstColon long_lived_token with
  | none =>
      Except.error (lltErrorResponse "not enough values to unpack (expected 2, got 1)")
  | some (eid, llt) =>
    match find_entity_by_eid st eid with
    | none =>
        Except.error (lltErrorResponse
          ("Possible token tampering detected. Entity not found with eid: " ++ eid))
    | some entity_obj =>
      let entity_device_id_shared_key :=
        env.agree entity_obj.device_id_keypair entity_obj.client_device_id_pub_key
      match env.verifyLlt llt entity_device_id_shared_key with
      | Except.error llt_error => Except.error (lltErrorResponse llt_error)
      | Except.ok llt_payload =>
        if llt_payload.eid ≠ some eid then
          Except.error (lltErrorResponse
            ("Possible token tampering detected. EID mismatch: " ++ eid))
        else Except.ok entity_obj

/-- Events emitted in code order as a handler runs; used to state temporal
claims about the order of side effects. -/
inductive Event where
  | otpSent (phone_number : String)
  | otpVerified (phone_number : String)
  | passwordVerified
  | clearedDeviceIdAndState
  | entityCreated
  | entitySaved
  deriving DecidableEq, Repr

/-- Python `str.lower()` (per-character lowercasing). -/
def strLower (s : String) : String := String.mk (s.data.map Char.toLower)

/-- `SUPPORTED_PLATFORMS = ("gmail",)`. -/
def SUPPORTED_PLATFORMS : List String := ["gmail"]

/-- `KEYSTORE_PATH` configuration value (an opaque directory prefix). -/
def KEYSTORE_PATH : String := "keystore"

/-- `handle_pow_initialization`: call `send_otp`; on gateway failure produce
an `INVALID_ARGUMENT` error, otherwise the message and retry timestamp. -/
def handle_pow_initialization (env : Env) (phone_number : String) :
    Except ErrorInfo (String × Nat) :=
  let r := env.otpSend phone_number
  if r.1 then Except.ok (r.2.1, r.2.2)
  else Except.error (error_response
    ("Ownership proof initialization failed. Reason: " ++ r.2.1)
    StatusCode.INVALID_ARGUMENT none)

/-- `handle_pow_verification`: call `verify_otp`; on failure produce an
`UNAUTHENTICATED` error, otherwise the gateway message. -/
def handle_pow_verification (env : Env) (phone_number ownership_proof_response : String) :
    Except ErrorInfo String :=
  let r := env.otpVerify phone_number ownership_proof_response
  if r.1 then Except.ok r.2
  else Except.error (error_response
    ("Ownership proof verification failed. Reason: " ++ r.2)
    StatusCode.UNAUTHENTICATED none)

/-- `CreateEntity` request fields (proto3 strings, absent = empty). -/
structure CreateEntityRequest where
  phone_number : String
  country_code : String
  password : String
  client_publish_pub_key : String
  client_device_id_pub_key : String
  ownership_proof_response : String
  deriving DecidableEq, Repr

/-- `getattr(request, field, None)` for `CreateEntity` requests. -/
def CreateEntityRequest.get (r : CreateEntityRequest) : String → String
  | "phone_number" => r.phone_number
  | "country_code" => r.country_code
  | "password" => r.password
  | "client_publish_pub_key" => r.client_publish_pub_key
  | "client_device_id_pub_key" => r.client_device_id_pub_key
  | "ownership_proof_response" => r.ownership_proof_response
  | _ => ""

/-- `CreateEntityResponse` fields. -/
structure CreateEntityResponse where
  message : String := ""
  long_lived_token : String := ""
  requires_ownership_proof : Bool := false
  next_attempt_timestamp : Nat := 0
  server_publish_pub_key : String := ""
  server_device_id_pub_key : String := ""
  deriving DecidableEq, Repr

/-- `initiate_creation`: send the OTP and return
`requires_ownership_proof=true` with the gateway message and retry time. -/
def initiate_creation (env : Env) (st : VaultState) (request : CreateEntityRequest) :
    Except ErrorInfo CreateEntityResponse × VaultState × List Event :=
  let ev := [Event.otpSent request.phone_number]
  match handle_pow_initialization env request.phone_number with
  | Except.error e => (Except.error e, st, ev)
  | Except.ok me =>
      (Except.ok { message := me.1, requires_ownership_proof := true,
                   next_attempt_timestamp := me.2 },
       st, ev)

/-- `complete_creation`: verify the OTP, derive hashes and `eid`, obtain both
keypairs from the keystore, agree the device-id shared key, mint the LLT,
compute the device id, and persist the new entity row. -/
def complete_creation (env : Env) (st : VaultState) (request : CreateEntityRequest) :
    Except ErrorInfo CreateEntityResponse × VaultState × List Event :=
  let ev := [Event.otpVerified request.phone_number]
  match handle_pow_verification env request.phone_number request.ownership_proof_response with
  | Except.error e => (Except.error e, st, ev)
  | Except.ok _ =>
    let phone_number_hash := env.hmacHash request.phone_number
    let eid := env.generateEid phone_number_hash
    let password_hash := env.hmacHash request.password
    let country_code_ciphertext_b64 := env.encrypt request.country_code
    let pubkp := env.genKeypair (KEYSTORE_PATH ++ "/" ++ eid ++ "_publish.db")
    let devkp := env.genKeypair (KEYSTORE_PATH ++ "/" ++ eid ++ "_device_id.db")
    let device_id_shared_key := env.agree devkp.1 request.client_device_id_pub_key
    let long_lived_token := env.genLlt eid device_id_shared_key
    let newEntity : Entity :=
      { eid := eid
        phone_number_hash := phone_number_hash
        password_hash := password_hash
        country_code := country_code_ciphertext_b64
        device_id := some (env.computeDeviceIdStr device_id_shared_key
          request.phone_number request.client_device_id_pub_key)
        client_publish_pub_key := request.client_publish_pub_key
        client_device_id_pub_key := request.client_device_id_pub_key
        publish_keypair := pubkp.1
        device_id_keypair := devkp.1
        server_state := none }
    (Except.ok { message := "Entity created successfully",
                 long_lived_token := long_lived_token,
                 server_publish_pub_key := pubkp.2,
                 server_device_id_pub_key := devkp.2 },
     { st with entities := st.entities ++ [newEntity] },
     ev ++ [Event.entityCreated])

/-- `EntityService.CreateEntity`: validate `phone_number`, reject an existing
phone hash with `ALREADY_EXISTS`, then complete (with the phase-2 field
validation) or initiate depending on `ownership_proof_response`. -/
def CreateEntity (env : Env) (st : VaultState) (request : CreateEntityRequest) :
    Except ErrorInfo CreateEntityResponse × VaultState × List Event :=
  match validate_request_fields env.isValidPub request.get [ReqField.single "phone_number"] with
  | some e => (Except.error e, st, [])
  | none =>
    let phone_number_hash := env.hmacHash request.phone_number
    match find_entity_by_phone_hash st phone_number_hash with
    | some _ =>
        (Except.error (error_response
          ("Entity with phone number `" ++ request.phone_number ++ "` already exists.")
          StatusCode.ALREADY_EXISTS none), st, [])
    | none =>
      if request.ownership_proof_response ≠ "" then
        match validate_request_fields env.isValidPub request.get
            [ReqField.single "country_code", ReqField.single "password",
             ReqField.single "client_publish_pub_key",
             ReqField.single "client_device_id_pub_key"] with
        | some e => (Except.error e, st, [])
        | none => complete_creation env st request
      else
        initiate_creation env st request

/-- `AuthenticateEntity` request fields. -/
structure AuthenticateEntityRequest where
  phone_number : String
  password : String
  client_publish_pub_key : String
  client_device_id_pub_key : String
  ownership_proof_response : String
  deriving DecidableEq, Repr

/-- `getattr(request, field, None)` for `AuthenticateEntity` requests. -/
def AuthenticateEntityRequest.get (r : AuthenticateEntityRequest) : String → String
  | "phone_number" => r.phone_number
  | "password" => r.password
  | "client_publish_pub_key" => r.client_publish_pub_key
  | "client_device_id_pub_key" => r.client_device_id_pub_key
  | "ownership_proof_response" => r.ownership_proof_response
  | _ => ""

/-- `AuthenticateEntityResponse` fields. -/
structure AuthenticateEntityResponse where
  message : String := ""
  long_lived_token : String := ""
  requires_ownership_proof : Bool := false
  next_attempt_timestamp : Nat := 0
  server_publish_pub_key : String := ""
  server_device_id_pub_key : String := ""
  deriving DecidableEq, Repr

/-- `initiate_authentication`: require `password`, verify it against the
stored hash, send the OTP, then clear `device_id` and `server_state` and save
the entity before returning `requires_ownership_proof=true`. -/
def initiate_authentication (env : Env) (st : VaultState)
    (request : AuthenticateEntityRequest) (entity_obj : Entity) :
    Except ErrorInfo AuthenticateEntityResponse × VaultState × List Event :=
  match validate_request_fields env.isValidPub request.get [ReqField.single "password"] with
  | some e => (Except.error e, st, [])
  | none =>
    if env.hmacHash request.password ≠ entity_obj.password_hash then
      (Except.error (error_response
        ("Incorrect Password provided for phone number " ++ request.phone_number)
        StatusCode.UNAUTHENTICATED
        (some ("Incorrect credentials. Please double-check " ++
               "your details and try again."))), st, [])
    else
      let ev := [Event.passwordVerified, Event.otpSent request.phone_number]
      match handle_pow_initialization env request.phone_number with
      | Except.error e => (Except.error e, st, ev)
      | Except.ok me =>
        let entity' := { entity_obj with device_id := none, server_state := none }
        (Except.ok { message := me.1, requires_ownership_proof := true,
                     next_attempt_timestamp := me.2 },
         update_entity st entity',
         ev ++ [Event.clearedDeviceIdAndState])

/-- `complete_authentication`: require and validate both client public keys,
verify the OTP, regenerate both keypairs via the keystore, agree the shared
key, mint a new LLT, and repopulate `device_id`, client keys and keypair
blobs on the entity. -/
def complete_authentication (env : Env) (st : VaultState)
    (request : AuthenticateEntityRequest) (entity_obj : Entity) :
    Except ErrorInfo AuthenticateEntityResponse × VaultState × List Event :=
  match validate_request_fields env.isValidPub request.get
      [ReqField.single "client_publish_pub_key",
       ReqField.single "client_device_id_pub_key"] with
  | some e => (Except.error e, st, [])
  | none =>
    let ev := [Event.otpVerified request.phone_number]
    match handle_pow_verification env request.phone_number request.ownership_proof_response with
    | Except.error e => (Except.error e, st, ev)
    | Except.ok _ =>
      let eid := entity_obj.eid
      let pubkp := env.genKeypair (KEYSTORE_PATH ++ "/" ++ eid ++ "_publish.db")
      let devkp := env.genKeypair (KEYSTORE_PATH ++ "/" ++ eid ++ "_device_id.db")
      let device_id_shared_key := env.agree devkp.1 request.client_device_id_pub_key
      let long_lived_token := env.genLlt eid device_id_shared_key
      let entity' := { entity_obj with
        device_id := some (env.computeDeviceIdStr device_id_shared_key
          request.phone_number request.client_device_id_pub_key),
        client_publish_pub_key := request.client_publish_pub_key,
        client_device_id_pub_key := request.client_device_id_pub_key,
        publish_keypair := pubkp.1,
        device_id_keypair := devkp.1 }
      (Except.ok { message := "Entity authenticated successfully!",
                   long_lived_token := long_lived_token,
                   server_publish_pub_key := pubkp.2,
                   server_device_id_pub_key := devkp.2 },
       update_entity st entity',
       ev ++ [Event.entitySaved])

/-- `EntityService.AuthenticateEntity`: require `phone_number`, look up the
entity by phone hash (`NOT_FOUND` on miss), then complete or initiate
depending on `ownership_proof_response`. -/
def AuthenticateEntity (env : Env) (st : VaultState)
    (request : AuthenticateEntityRequest) :
    Except ErrorInfo AuthenticateEntityResponse × VaultState × List Event :=
  match validate_request_fields env.isValidPub request.get [ReqField.single "phone_number"] with
  | some e => (Except.error e, st, [])
  | none =>
    let phone_number_hash := env.hmacHash request.phone_number
    match find_entity_by_phone_hash st phone_number_hash with
    | none =>
        (Except.error (error_response
          ("Entity with phone number `" ++ request.phone_number ++ "` not found.")
          StatusCode.NOT_FOUND none), st, [])
    | some entity_obj =>
      if request.ownership_proof_response ≠ "" then
        complete_authentication env st request entity_obj
      else
        initiate_authentication env st request entity_obj

/-- The `NotImplementedError` message raised for an unsupported platform. -/
def unsupportedPlatformMsg (platform : String) : String :=
  "The platform \x27" ++ platform ++ "\x27 is currently not supported. " ++
  "Please contact the developers for more information on when " ++
  "this platform will be implemented."

/-- The `NOT_FOUND` message for a missing `(platform, account_identifier)`
token row. -/
def noTokenFoundMsg (account_identifier platform : String) : String :=
  "No token found with account " ++
  "identifier " ++ account_identifier ++ " for " ++ platform

/-- The `UNAUTHENTICATED` message for an unknown device id. -/
def invalidDeviceIdMsg (device_id : String) : String :=
  "Invalid device ID \x27" ++ device_id ++ "\x27. " ++
  "Please log in again to obtain a valid device ID."

/-- `StoreEntityToken` request fields. -/
structure StoreEntityTokenRequest where
  long_lived_token : String
  token : String
  platform : String
  account_identifier : String
  deriving DecidableEq, Repr

/-- `getattr(request, field, None)` for `StoreEntityToken` requests. -/
def StoreEntityTokenRequest.get (r : StoreEntityTokenRequest) : String → String
  | "long_lived_token" => r.long_lived_token
  | "token" => r.token
  | "platform" => r.platform
  | "account_identifier" => r.account_identifier
  | _ => ""

/-- `StoreEntityTokenResponse` fields. -/
structure StoreEntityTokenResponse where
  message : String := ""
  success : Bool := false
  deriving DecidableEq, Repr

/-- `EntityService.StoreEntityToken`: validate, verify the LLT, reject an
unsupported platform with `UNIMPLEMENTED`, reject a duplicate
`(entity, platform, account_identifier_hash)` with `ALREADY_EXISTS`, and
otherwise persist the encrypted token row. -/
def StoreEntityToken (env : Env) (st : VaultState) (request : StoreEntityTokenRequest) :
    Except ErrorInfo StoreEntityTokenResponse × VaultState :=
  match validate_request_fields env.isValidPub request.get
      [ReqField.single "long_lived_token", ReqField.single "token",
       ReqField.single "platform", ReqField.single "account_identifier"] with
  | some e => (Except.error e, st)
  | none =>
    match verify_long_lived_token env st request.long_lived_token with
    | Except.error e => (Except.error e, st)
    | Except.ok entity_obj =>
      if !(SUPPORTED_PLATFORMS.contains (strLower request.platform)) then
        (Except.error (error_response (unsupportedPlatformMsg request.platform)
          StatusCode.UNIMPLEMENTED none), st)
      else
        let account_identifier_hash := env.hmacHash request.account_identifier
        let existing_tokens :=
          fetch_entity_tokens st entity_obj request.platform account_identifier_hash
        if existing_tokens ≠ [] then
          (Except.error (error_response
            ("Entity already has a token associated with account " ++
             "identifier " ++ request.account_identifier ++ " for " ++ request.platform)
            StatusCode.ALREADY_EXISTS none), st)
        else
          (Except.ok { message := "Token stored successfully.", success := true },
           { st with tokens := st.tokens ++
             [{ entity_eid := entity_obj.eid,
                platform := request.platform,
                account_identifier_hash := account_identifier_hash,
                account_identifier := env.encrypt request.account_identifier,
                account_tokens := env.encrypt request.token }] })

/-- `GetEntityAccessToken` request fields. -/
structure GetEntityAccessTokenRequest where
  device_id : String
  long_lived_token : String
  platform : String
  account_identifier : String
  deriving DecidableEq, Repr

/-- `getattr(request, field, None)` for `GetEntityAccessToken` requests. -/
def GetEntityAccessTokenRequest.get (r : GetEntityAccessTokenRequest) : String → String
  | "device_id" => r.device_id
  | "long_lived_token" => r.long_lived_token
  | "platform" => r.platform
  | "account_identifier" => r.account_identifier
  | _ => ""

/-- `GetEntityAccessTokenResponse` fields. -/
structure GetEntityAccessTokenResponse where
  message : String := ""
  success : Bool := false
  token : String := ""
  deriving DecidableEq, Repr

/-- `EntityService.GetEntityAccessToken`: validate with the alternative pair
`(device_id, long_lived_token)`, authenticate via the LLT when present else
via the device id, reject an unsupported platform with `UNIMPLEMENTED`, and
return the decrypted `account_tokens` of the matching row (`NOT_FOUND` when
none).  When both authenticators are empty the Python handler leaves
`entity_obj` unbound and the catch-all maps the `NameError` to `INTERNAL`;
that branch is unreachable past validation. -/
def GetEntityAccessToken (env : Env) (st : VaultState)
    (request : GetEntityAccessTokenRequest) :
    Except ErrorInfo GetEntityAccessTokenResponse × VaultState :=
  match validate_request_fields env.isValidPub request.get
      [ReqField.alt ["device_id", "long_lived_token"],
       ReqField.single "platform", ReqField.single "account_identifier"] with
  | some e => (Except.error e, st)
  | none =>
    let auth : Except ErrorInfo Entity :=
      if request.long_lived_token ≠ "" then
        verify_long_lived_token env st request.long_lived_token
      else if request.device_id ≠ "" then
        match find_entity_by_device_id st request.device_id with
        | none => Except.error (error_response (invalidDeviceIdMsg request.device_id)
            StatusCode.UNAUTHENTICATED none)
        | some e => Except.ok e
      else
        Except.error (error_response "name \x27entity_obj\x27 is not defined"
          StatusCode.INTERNAL
          (some "Oops! Something went wrong. Please try again later."))
    match auth with
    | Except.error e => (Except.error e, st)
    | Except.ok entity_obj =>
      if !(SUPPORTED_PLATFORMS.contains (strLower request.platform)) then
        (Except.error (error_response (unsupportedPlatformMsg request.platform)
          StatusCode.UNIMPLEMENTED none), st)
      else
        let account_identifier_hash := env.hmacHash request.account_identifier
        match fetch_entity_tokens st entity_obj request.platform account_identifier_hash with
        | [] =>
            (Except.error (error_response
              (noTokenFoundMsg request.account_identifier request.platform)
              StatusCode.NOT_FOUND none), st)
        | t :: _ =>
            (Except.ok { message := "Successfully fetched tokens.", success := true,
                         token := env.decrypt t.account_tokens }, st)

/-- `UpdateEntityToken` request fields. -/
structure UpdateEntityTokenRequest where
  device_id : String
  token : String
  platform : String
  account_identifier : String
  deriving DecidableEq, Repr

/-- `getattr(request, field, None)` for `UpdateEntityToken` requests. -/
def UpdateEntityTokenRequest.get (r : UpdateEntityTokenRequest) : String → String
  | "device_id" => r.device_id
  | "token" => r.token
  | "platform" => r.platform
  | "account_identifier" => r.account_identifier
  | _ => ""

/-- `UpdateEntityTokenResponse` fields. -/
structure UpdateEntityTokenResponse where
  message : String := ""
  success : Bool := false
  deriving DecidableEq, Repr

/-- Apply `f` to the first list element satisfying `p` (a loaded row's
in-place mutation followed by `.save()`). -/
def modifyFirst (p : α → Bool) (f : α → α) : List α → List α
  | [] => []
  | x :: xs => if p x then f x :: xs else x :: modifyFirst p f xs

/-- `EntityService.UpdateEntityToken`: validate, authenticate by device id,
and overwrite `account_tokens` of the first matching row with the new
encrypted value (`NOT_FOUND` when no row matches).  There is no platform
whitelist check in this handler. -/
def UpdateEntityToken (env : Env) (st : VaultState) (request : UpdateEntityTokenRequest) :
    Except ErrorInfo UpdateEntityTokenResponse × VaultState :=
  match validate_request_fields env.isValidPub request.get
      [ReqField.single "device_id", ReqField.single "token",
       ReqField.single "platform", ReqField.single "account_identifier"] with
  | some e => (Except.error e, st)
  | none =>
    match find_entity_by_device_id st request.device_id with
    | none =>
        (Except.error (error_response (invalidDeviceIdMsg request.device_id)
          StatusCode.UNAUTHENTICATED none), st)
    | some entity_obj =>
      let account_identifier_hash := env.hmacHash request.account_identifier
      let existing_tokens :=
        fetch_entity_tokens st entity_obj request.platform account_identifier_hash
      if existing_tokens = [] then
        (Except.error (error_response
          (noTokenFoundMsg request.account_identifier request.platform)
          StatusCode.NOT_FOUND none), st)
      else
        let tokens' := modifyFirst
          (fun t => t.entity_eid == entity_obj.eid && t.platform == request.platform &&
            t.account_identifier_hash == account_identifier_hash)
          (fun t => { t with account_tokens := env.encrypt request.token })
          st.tokens
        (Except.ok { message := "Token updated successfully.", success := true },
         { st with tokens := tokens' })

/-- `DeleteEntityToken` request fields. -/
structure DeleteEntityTokenRequest where
  long_lived_token : String
  platform : String
  account_identifier : String
  deriving DecidableEq, Repr

/-- `getattr(request, field, None)` for `DeleteEntityToken` requests. -/
def DeleteEntityTokenRequest.get (r : DeleteEntityTokenRequest) : String → String
  | "long_lived_token" => r.long_lived_token
  | "platform" => r.platform
  | "account_identifier" => r.account_identifier
  | _ => ""

/-- `DeleteEntityTokenResponse` fields. -/
structure DeleteEntityTokenResponse where
  message : String := ""
  success : Bool := false
  deriving DecidableEq, Repr

/-- `EntityService.DeleteEntityToken`: validate, verify the LLT, reject an
unsupported platform with `UNIMPLEMENTED`, and delete the first matching row
(`NOT_FOUND` when no row matches). -/
def DeleteEntityToken (env : Env) (st : VaultState) (request : DeleteEntityTokenRequest) :
    Except ErrorInfo DeleteEntityTokenResponse × VaultState :=
  match validate_request_fields env.isValidPub request.get
      [ReqField.single "long_lived_token", ReqField.single "platform",
       ReqField.single "account_identifier"] with
  | some e => (Except.error e, st)
  | none =>
    match verify_long_lived_token env st request.long_lived_token with
    | Except.error e => (Except.error e, st)
    | Except.ok entity_obj =>
      if !(SUPPORTED_PLATFORMS.contains (strLower request.platform)) then
        (Except.error (error_response (unsupportedPlatformMsg request.platform)
          StatusCode.UNIMPLEMENTED none), st)
      else
        let account_identifier_hash := env.hmacHash request.account_identifier
        let existing_tokens :=
          fetch_entity_tokens st entity_obj request.platform account_identifier_hash
        if existing_tokens = [] then
          (Except.error (error_response
            (noTokenFoundMsg request.account_identifier request.platform)
            StatusCode.NOT_FOUND none), st)
        else
          let tokens' := st.tokens.eraseP
            (fun t => t.entity_eid == entity_obj.eid && t.platform == request.platform &&
              t.account_identifier_hash == account_identifier_hash)
          (Except.ok { message := "Token deleted successfully.", success := true },
           { st with tokens := tokens' })

/-- `DeleteEntity` request fields. -/
structure DeleteEntityRequest where
  long_lived_token : String
  deriving DecidableEq, Repr

/-- `getattr(request, field, None)` for `DeleteEntity` requests. -/
def DeleteEntityRequest.get (r : DeleteEntityRequest) : String → String
  | "long_lived_token" => r.long_lived_token
  | _ => ""

/-- `DeleteEntityResponse` fields. -/
structure DeleteEntityResponse where
  message : String := ""
  success : Bool := false
  deriving DecidableEq, Repr

/-- Python `str` of one `{'account_identifier': ..., 'platform': ...}` entry
of the stored-token listing. -/
def pyTokenPairStr (account_identifier platform : String) : String :=
  "\x7b\x27account_identifier\x27: \x27" ++ account_identifier ++
  "\x27, \x27platform\x27: \x27" ++ platform ++ "\x27\x7d"

/-- The `FAILED_PRECONDITION` message of `DeleteEntity`, with the
`"; "`-joined token details. -/
def deleteBlockedMsg (token_details : String) : String :=
  "You cannot delete entity because it still has stored tokens. " ++
  "Revoke stored tokens with the following platforms and try again: " ++
  token_details ++ "."

/-- `EntityService.DeleteEntity`: validate, verify the LLT, refuse with
`FAILED_PRECONDITION` listing every stored `(account_identifier, platform)`
pair (account identifiers decrypted) while any token row remains, and
otherwise delete the entity row. -/
def DeleteEntity (env : Env) (st : VaultState) (request : DeleteEntityRequest) :
    Except ErrorInfo DeleteEntityResponse × VaultState :=
  match validate_request_fields env.isValidPub request.get
      [ReqField.single "long_lived_token"] with
  | some e => (Except.error e, st)
  | none =>
    match verify_long_lived_token env st request.long_lived_token with
    | Except.error e => (Except.error e, st)
    | Except.ok entity_obj =>
      let stored_tokens := fetch_entity_tokens_all st entity_obj
      if stored_tokens ≠ [] then
        let token_details := joinSep "; " (stored_tokens.map (fun t =>
          pyTokenPairStr (env.decrypt t.account_identifier) t.platform))
        (Except.error (error_response (deleteBlockedMsg token_details)
          StatusCode.FAILED_PRECONDITION none), st)
      else
        (Except.ok { message := "Entity deleted successfully.", success := true },
         { st with entities := st.entities.eraseP (fun e => e.eid == entity_obj.eid) })

/-- `EncryptPayload` request fields. -/
structure EncryptPayloadRequest where
  device_id : String
  payload_plaintext : String
  deriving DecidableEq, Repr

/-- `getattr(request, field, None)` for `EncryptPayload` requests. -/
def EncryptPayloadRequest.get (r : EncryptPayloadRequest) : String → String
  | "device_id" => r.device_id
  | "payload_plaintext" => r.payload_plaintext
  | _ => ""

/-- `EncryptPayloadResponse` fields. -/
structure EncryptPayloadResponse where
  message : String := ""
  success : Bool := false
  payload_ciphertext : String := ""
  deriving DecidableEq, Repr

/-- `EntityService.EncryptPayload` exactly as shipped: the entire ratchet
encrypt block is commented out in the source, and the handler sets
`b64_encoded_content = request.payload_plaintext`, so it validates,
authenticates the device id, and returns the plaintext unchanged without
touching `server_state`. -/
def EncryptPayload (env : Env) (st : VaultState) (request : EncryptPayloadRequest) :
    Except ErrorInfo EncryptPayloadResponse × VaultState :=
  match validate_request_fields env.isValidPub request.get
      [ReqField.single "device_id", ReqField.single "payload_plaintext"] with
  | some e => (Except.error e, st)
  | none =>
    match find_entity_by_device_id st request.device_id with
    | none =>
        (Except.error (error_response (invalidDeviceIdMsg request.device_id)
          StatusCode.UNAUTHENTICATED none), st)
    | some _ =>
      let b64_encoded_content := request.payload_plaintext
      (Except.ok { message := "Successfully encrypted payload.",
                   payload_ciphertext := b64_encoded_content, success := true }, st)

/-! ## SHA-256 and HMAC (Python `hashlib.sha256` / `hmac.new`)

A byte-level implementation of FIPS 180-4 SHA-256 and RFC 2104 HMAC over
`List Nat` (each entry one byte), used to embed `src/device_id.py`.  32-bit
machine words are `Nat` reduced with `w32` where overflow matters. -/

/-- Truncate to a 32-bit word. -/
def w32 (n : Nat) : Nat := n % 4294967296

/-- 32-bit rotate right. -/
def rotr32 (n x : Nat) : Nat := w32 ((x >>> n) ||| (x <<< (32 - n)))

/-- 32-bit bitwise complement. -/
def not32 (x : Nat) : Nat := x ^^^ 4294967295

/-- SHA-256 σ₀. -/
def smallSigma0 (x : Nat) : Nat := (rotr32 7 x) ^^^ (rotr32 18 x) ^^^ (x >>> 3)

/-- SHA-256 σ₁. -/
def smallSigma1 (x : Nat) : Nat := (rotr32 17 x) ^^^ (rotr32 19 x) ^^^ (x >>> 10)

/-- SHA-256 Σ₀. -/
def bigSigma0 (x : Nat) : Nat := (rotr32 2 x) ^^^ (rotr32 13 x) ^^^ (rotr32 22 x)

/-- SHA-256 Σ₁. -/
def bigSigma1 (x : Nat) : Nat := (rotr32 6 x) ^^^ (rotr32 11 x) ^^^ (rotr32 25 x)

/-- SHA-256 choose. -/
def chFn (x y z : Nat) : Nat := (x &&& y) ^^^ (not32 x &&& z)

/-- SHA-256 majority. -/
def majFn (x y z : Nat) : Nat := (x &&& y) ^^^ (x &&& z) ^^^ (y &&& z)

/-- The 64 SHA-256 round constants. -/
def sha256K : List Nat :=
  [ 1116352408, 1899447441, 3049323471, 3921009573, 961987163,
    1508970993, 2453635748, 2870763221, 3624381080, 310598401,
    607225278, 1426881987, 1925078388, 2162078206, 2614888103,
    3248222580, 3835390401, 4022224774, 264347078, 604807628,
    770255983, 1249150122, 1555081692, 1996064986, 2554220882,
    2821834349, 2952996808, 3210313671, 3336571891, 3584528711,
    113926993, 338241895, 666307205, 773529912, 1294757372,
    1396182291, 1695183700, 1986661051, 2177026350, 2456956037,
    2730485921, 2820302411, 3259730800, 3345764771, 3516065817,
    3600352804, 4094571909, 275423344, 430227734, 506948616,
    659060556, 883997877, 958139571, 1322822218, 1537002063,
    1747873779, 1955562222, 2024104815, 2227730452, 2361852424,
    2428436474, 2756734187, 3204031479, 3329325298 ]

/-- The SHA-256 initial hash value. -/
def sha256H0 : List Nat :=
  [ 1779033703, 3144134277, 1013904242, 2773480762,
    1359893119, 2600822924, 528734635, 1541459225 ]

/-- Extend the 16-word message block by the given number of schedule words. -/
def extendSchedule : Nat → List Nat → List Nat
  | 0, acc => acc
  | Nat.succ k, acc =>
      let n := acc.length
      let wi := w32 (smallSigma1 (acc.getD (n - 2) 0) + acc.getD (n - 7) 0 +
        smallSigma0 (acc.getD (n - 15) 0) + acc.getD (n - 16) 0)
      extendSchedule k (acc ++ [wi])

/-- One SHA-256 compression round on the 8-word working state. -/
def compressRound (s : List Nat) (kw : Nat × Nat) : List Nat :=
  match s with
  | [a, b, c, d, e, f, g, h] =>
    let t1 := w32 (h + bigSigma1 e + chFn e f g + kw.1 + kw.2)
    let t2 := w32 (bigSigma0 a + majFn a b c)
    [w32 (t1 + t2), a, b, c, w32 (d + t1), e, f, g]
  | other => other

/-- The SHA-256 compression function on one 16-word block. -/
def sha256Compress (h : List Nat) (block : List Nat) : List Nat :=
  let ws := extendSchedule 48 block
  let s := (sha256K.zip ws).foldl compressRound h
  (h.zip s).map (fun p => w32 (p.1 + p.2))

/-- Big-endian bytes of a 32-bit word. -/
def toBE32 (n : Nat) : List Nat :=
  [(n >>> 24) &&& 255, (n >>> 16) &&& 255, (n >>> 8) &&& 255, n &&& 255]

/-- Big-endian bytes of a 64-bit word. -/
def toBE64 (n : Nat) : List Nat :=
  [(n >>> 56) &&& 255, (n >>> 48) &&& 255, (n >>> 40) &&& 255, (n >>> 32) &&& 255,
   (n >>> 24) &&& 255, (n >>> 16) &&& 255, (n >>> 8) &&& 255, n &&& 255]

/-- SHA-256 padding: `0x80`, zeros to 56 mod 64, then the bit length. -/
def sha256Pad (msg : List Nat) : List Nat :=
  let l := msg.length
  msg ++ [128] ++ List.replicate ((119 - (l % 64)) % 64) 0 ++ toBE64 (8 * l)

/-- Split a list into consecutive chunks of the given size (fuelled so the
recursion is structural and kernel-reducible). -/
def chunksAux (size : Nat) : Nat → List Nat → List (List Nat)
  | 0, _ => []
  | _, [] => []
  | Nat.succ fuel, x :: xs =>
      (x :: xs).take size :: chunksAux size fuel ((x :: xs).drop size)

/-- Split a list into consecutive chunks of the given size. -/
def chunks (size : Nat) (l : List Nat) : List (List Nat) := chunksAux size l.length l

/-- Big-endian word of four bytes. -/
def beWordOfBytes (b : List Nat) : Nat :=
  b.getD 0 0 * 16777216 + b.getD 1 0 * 65536 + b.getD 2 0 * 256 + b.getD 3 0

/-- SHA-256 of a byte string. -/
def sha256 (msg : List Nat) : List Nat :=
  let blocks := (chunks 64 (sha256Pad msg)).map (fun b => (chunks 4 b).map beWordOfBytes)
  (blocks.foldl sha256Compress sha256H0).flatMap toBE32

/-- Lowercase hexadecimal digit. -/
def hexDigitChar (n : Nat) : Char :=
  if n < 10 then Char.ofNat (48 + n) else Char.ofNat (87 + n)

/-- Two lowercase hexadecimal digits of a byte. -/
def byteToHex (b : Nat) : String :=
  String.mk [hexDigitChar (b / 16), hexDigitChar (b % 16)]

/-- Lowercase hexadecimal of a byte string (`.hexdigest()`). -/
def bytesToHex (bs : List Nat) : String := String.join (bs.map byteToHex)

/-- RFC 2104 HMAC-SHA256 (`hmac.new(key, msg, hashlib.sha256).digest()`):
hash an over-long key, zero-pad to the 64-byte block, and apply the nested
inner/outer hashes with the `0x36`/`0x5c` pads. -/
def hmac_sha256 (key msg : List Nat) : List Nat :=
  let key1 := if 64 < key.length then sha256 key else key
  let key0 := key1 ++ List.replicate (64 - key1.length) 0
  let o_key_pad := key0.map (fun b => b ^^^ 0x5c)
  let i_key_pad := key0.map (fun b => b ^^^ 0x36)
  sha256 (o_key_pad ++ sha256 (i_key_pad ++ msg))

/-- UTF-8 bytes of a string (Python `str.encode("utf-8")`). -/
def strUtf8 (s : String) : List Nat := s.toUTF8.data.toList.map (fun b => b.toNat)

/-- `compute_device_id` from `src/device_id.py`: HMAC-SHA256 of the plain
concatenation `phone_number + public_key`, UTF-8 encoded, keyed on the secret
key, rendered as a lowercase hex digest. -/
def compute_device_id (secret_key : List Nat) (phone_number public_key : String) : String :=
  let combined_input := phone_number ++ public_key
  bytesToHex (hmac_sha256 secret_key (strUtf8 combined_input))

/-- The device id as the spec words it: the lowercase hexadecimal of
HMAC-SHA256 keyed on `sk` over the UTF-8 bytes of `p` followed by the UTF-8
bytes of `pub`, with no separator between the two. -/
def device_id_spec (sk : List Nat) (p pub : String) : String :=
  bytesToHex (hmac_sha256 sk (strUtf8 p ++ strUtf8 pub))

/-- UTF-8 encoding distributes over string concatenation. -/
theorem strUtf8_append (p q : String) : strUtf8 (p ++ q) = strUtf8 p ++ strUtf8 q := by
  simp [strUtf8, String.toUTF8]

/-! ## Concrete fixtures

A small computable environment and store used to evaluate the handlers on
concrete inputs (witnesses and counterexamples). -/

/-- A concrete environment: injective tagging functions for the hash and
cipher, a keyed LLT check accepting the fixed token body `L` with payload
eid `e1`, and an always-successful OTP gateway accepting code `123456`. -/
def envW : Env :=
  { hmacHash := fun s => "H" ++ s
    encrypt := fun s => "E" ++ s
    decrypt := fun s => s.drop 1
    isValidPub := fun _ => none
    agree := fun a b => a ++ "|" ++ b
    verifyLlt := fun llt _ =>
      if llt = "L" then Except.ok { eid := some "e1" }
      else Except.error "Invalid signature"
    genLlt := fun eid sk => eid ++ ":" ++ sk
    genKeypair := fun path => ("kp_" ++ path, "pub_" ++ path)
    computeDeviceIdStr := fun a b c => "did_" ++ a ++ b ++ c
    otpSend := fun _ => (true, "OTP sent", 100)
    otpVerify := fun _ code => (code = "123456", "OTP verified")
    generateEid := fun h => "eid_" ++ h }

/-- A concrete entity row `e1` bound to phone hash `H+237`. -/
def entW : Entity :=
  { eid := "e1"
    phone_number_hash := "H+237"
    password_hash := "Hpw"
    country_code := "ECM"
    device_id := some "d1"
    client_publish_pub_key := "CPK"
    client_device_id_pub_key := "CDK"
    publish_keypair := "PKP"
    device_id_keypair := "DKP"
    server_state := some "S0" }

/-- A second concrete entity row `e2`. -/
def entW2 : Entity :=
  { eid := "e2"
    phone_number_hash := "H+444"
    password_hash := "Hpw2"
    country_code := "ECM"
    device_id := some "d2"
    client_publish_pub_key := "CPK2"
    client_device_id_pub_key := "CDK2"
    publish_keypair := "PKP2"
    device_id_keypair := "DKP2"
    server_state := none }

/-- A concrete store holding just `e1` and no tokens. -/
def stW : VaultState := { entities := [entW], tokens := [] }

/-- A concrete store holding `e1` and `e2`. -/
def stW2 : VaultState := { entities := [entW, entW2], tokens := [] }

/-- A concrete gmail token row owned by `e1`. -/
def tokW : EntityToken :=
  { entity_eid := "e1"
    platform := "gmail"
    account_identifier_hash := "Ha@x"
    account_identifier := "Ea@x"
    account_tokens := "ET" }

/-- A concrete store holding `e1` plus its stored gmail token. -/
def stWtok : VaultState := { entities := [entW], tokens := [tokW] }

/-- Decidable equality of RPC outcomes. -/
instance instDecEqExcept [DecidableEq e] [DecidableEq a] : DecidableEq (Except e a) := fun x y =>
  match x, y with
  | Except.ok v, Except.ok w => decidable_of_iff (v = w) (by simp)
  | Except.error v, Except.error w => decidable_of_iff (v = w) (by simp)
  | Except.ok _, Except.error _ => isFalse (by simp)
  | Except.error _, Except.ok _ => isFalse (by simp)

/-- The user-visible message of an RPC outcome (empty on success). -/
def exceptUserMsg : Except ErrorInfo α → String
  | Except.error e => e.user_msg
  | Except.ok _ => ""

/-! ## C1 -/

/-- C1: `EncryptPayload` as shipped does not run the ratchet.  On a request
with the valid device id `d1` and non-empty plaintext `hello` against a store
whose entity has a live `server_state`, the handler returns
`payload_ciphertext = "hello"` (the plaintext verbatim, no header framing,
no base64 of a ciphertext) and leaves the store, including `server_state`,
completely unchanged. -/
theorem c1_encrypt_payload_is_stubbed :
    EncryptPayload envW stW { device_id := "d1", payload_plaintext := "hello" } =
      (Except.ok { message := "Successfully encrypted payload.",
                   success := true, payload_ciphertext := "hello" }, stW) ∧
    entW.server_state = some "S0" := by
  exact ⟨by decide, by decide⟩

/-! ## C8 -/

set_option maxRecDepth 40000 in
/-- C8: `compute_device_id` equals the lowercase hex of HMAC-SHA256 keyed on
the secret key over the UTF-8 bytes of the separator-free concatenation of
phone number and public key; it is deterministic (equal inputs give equal
digests); and flipping one bit of the key (`0x00` to `0x01`), of the phone
number (`p` to `q`) or of the public key (`A` to `@`) changes the digest on
a concrete instance. -/
theorem c8_compute_device_id_correct (sk : List Nat) (p pub : String)
    (sk' : List Nat) (p' pub' : String)
    (hsk : sk = sk') (hp : p = p') (hpub : pub = pub') :
    compute_device_id sk p pub = device_id_spec sk p pub ∧
    compute_device_id sk p pub = compute_device_id sk' p' pub' ∧
    compute_device_id [0] "p" "A" ≠ compute_device_id [1] "p" "A" ∧
    compute_device_id [0] "p" "A" ≠ compute_device_id [0] "q" "A" ∧
    compute_device_id [0] "p" "A" ≠ compute_device_id [0] "p" "@" := by
  subst hsk hp hpub
  refine ⟨?_, rfl, by decide, by decide, by decide⟩
  simp only [compute_device_id, device_id_spec, strUtf8_append]

set_option maxRecDepth 40000 in
/-- Witness for C8 at the concrete inputs `sk = [0]`, `p = "p"`,
`pub = "A"`. -/
theorem c8_compute_device_id_correct_witness :
    compute_device_id [0] "p" "A" = device_id_spec [0] "p" "A" ∧
    compute_device_id [0] "p" "A" = compute_device_id [0] "p" "A" ∧
    compute_device_id [0] "p" "A" ≠ compute_device_id [1] "p" "A" ∧
    compute_device_id [0] "p" "A" ≠ compute_device_id [0] "q" "A" ∧
    compute_device_id [0] "p" "A" ≠ compute_device_id [0] "p" "@" :=
  c8_compute_device_id_correct [0] "p" "A" [0] "p" "A" rfl rfl rfl

/-! ## C2 -/

/-- Concrete phase-1 authentication request with the correct password. -/
def reqAuthP1 : AuthenticateEntityRequest :=
  { phone_number := "+237", password := "pw", client_publish_pub_key := "",
    client_device_id_pub_key := "", ownership_proof_response := "" }

/-- C2 counterexample: in a successful phase-1 `AuthenticateEntity` run the
OTP send call happens strictly before `device_id`/`server_state` are
cleared — the event trace is password check, then OTP send, then clear — so
the claim that the fields are cleared before the OTP send call is false. -/
theorem c2_counterexample :
    (AuthenticateEntity envW stW reqAuthP1).2.2 =
      [Event.passwordVerified, Event.otpSent "+237", Event.clearedDeviceIdAndState] ∧
    (AuthenticateEntity envW stW reqAuthP1).2.2.findIdx
        (fun e => e == Event.otpSent "+237") <
      (AuthenticateEntity envW stW reqAuthP1).2.2.findIdx
        (fun e => e == Event.clearedDeviceIdAndState) := by
  exact ⟨by decide, by decide⟩

/-- C2 (amended): in phase 1, after the password is verified and the OTP send
call succeeds, the entity's `device_id` and `server_state` are cleared (after
the send call, before the response is returned); in phase 2 a failed OTP
verification leaves the store untouched, and a successful one repopulates
`device_id` (and the client keys and keypair blobs) while `server_state`
keeps its cleared value. -/
theorem c2_clear_and_repopulate (env : Env) (st : VaultState)
    (req req2 : AuthenticateEntityRequest) (ent ent2 : Entity) (m : String) (ts : Nat)
    (hopr : req.ownership_proof_response = "")
    (hphone : req.phone_number ≠ "")
    (hfind : find_entity_by_phone_hash st (env.hmacHash req.phone_number) = some ent)
    (hpw : req.password ≠ "")
    (hpass : env.hmacHash req.password = ent.password_hash)
    (hsend : env.otpSend req.phone_number = (true, m, ts))
    (hopr2 : req2.ownership_proof_response ≠ "")
    (hphone2 : req2.phone_number ≠ "")
    (hfind2 : find_entity_by_phone_hash st (env.hmacHash req2.phone_number) = some ent2)
    (hk1 : req2.client_publish_pub_key ≠ "")
    (hk2 : req2.client_device_id_pub_key ≠ "")
    (hv1 : env.isValidPub req2.client_publish_pub_key = none)
    (hv2 : env.isValidPub req2.client_device_id_pub_key = none) :
    AuthenticateEntity env st req =
      (Except.ok { message := m, requires_ownership_proof := true,
                   next_attempt_timestamp := ts },
       update_entity st { ent with device_id := none, server_state := none },
       [Event.passwordVerified, Event.otpSent req.phone_number,
        Event.clearedDeviceIdAndState]) ∧
    ((env.otpVerify req2.phone_number req2.ownership_proof_response).1 = false →
      (AuthenticateEntity env st req2).2.1 = st) ∧
    ((env.otpVerify req2.phone_number req2.ownership_proof_response).1 = true →
      (AuthenticateEntity env st req2).2.1 =
        update_entity st { ent2 with
          device_id := some (env.computeDeviceIdStr
            (env.agree (env.genKeypair
              (KEYSTORE_PATH ++ "/" ++ ent2.eid ++ "_device_id.db")).1
              req2.client_device_id_pub_key)
            req2.phone_number req2.client_device_id_pub_key),
          client_publish_pub_key := req2.client_publish_pub_key,
          client_device_id_pub_key := req2.client_device_id_pub_key,
          publish_keypair := (env.genKeypair
            (KEYSTORE_PATH ++ "/" ++ ent2.eid ++ "_publish.db")).1,
          device_id_keypair := (env.genKeypair
            (KEYSTORE_PATH ++ "/" ++ ent2.eid ++ "_device_id.db")).1 }) := by
  refine ⟨?_, ?_, ?_⟩
  · simp [AuthenticateEntity, initiate_authentication, handle_pow_initialization,
      validate_request_fields, missingFields, invalidPubFields, x25519_fields,
      AuthenticateEntityRequest.get, joinSep, hopr, hphone, hfind, hpw, hpass, hsend]
  · intro hoverify
    simp [AuthenticateEntity, complete_authentication, handle_pow_verification,
      validate_request_fields, missingFields, invalidPubFields, x25519_fields,
      AuthenticateEntityRequest.get, joinSep, hopr2, hphone2, hfind2,
      hk1, hk2, hv1, hv2, hoverify]
  · intro hoverify
    simp [AuthenticateEntity, complete_authentication, handle_pow_verification,
      validate_request_fields, missingFields, invalidPubFields, x25519_fields,
      AuthenticateEntityRequest.get, joinSep, hopr2, hphone2, hfind2,
      hk1, hk2, hv1, hv2, hoverify, update_entity]

/-- Concrete phase-2 authentication request carrying the OTP response. -/
def reqAuthP2 : AuthenticateEntityRequest :=
  { phone_number := "+237", password := "", client_publish_pub_key := "NCPK",
    client_device_id_pub_key := "NCDK", ownership_proof_response := "123456" }

/-- Witness for C2 at the concrete fixtures. -/
theorem c2_clear_and_repopulate_witness :
    AuthenticateEntity envW stW reqAuthP1 =
      (Except.ok { message := "OTP sent", requires_ownership_proof := true,
                   next_attempt_timestamp := 100 },
       update_entity stW { entW with device_id := none, server_state := none },
       [Event.passwordVerified, Event.otpSent reqAuthP1.phone_number,
        Event.clearedDeviceIdAndState]) :=
  (c2_clear_and_repopulate envW stW reqAuthP1 reqAuthP2 entW entW "OTP sent" 100
    (by decide) (by decide) (by decide) (by decide) (by decide) (by decide)
    (by decide) (by decide) (by decide) (by decide) (by decide) (by decide)
    (by decide)).1

/-! ## C3 -/

/-- C3: inside `verify_long_lived_token`, whenever the verified payload
carries an `eid` different from the eid prefixed on the wire form, the
result is an `UNAUTHENTICATED` error bearing the generic session-expired
user message; and every successful verification returns exactly the entity
looked up under the outer eid with the payload eid equal to it — so a token
whose payload was minted for entity A can never authenticate as a different
entity B. -/
theorem c3_llt_eid_crosscheck (env : Env) (st : VaultState) (tok : String) :
    (∀ eid rest payload ent,
      splitFirstColon tok = some (eid, rest) →
      find_entity_by_eid st eid = some ent →
      env.verifyLlt rest (env.agree ent.device_id_keypair ent.client_device_id_pub_key)
        = Except.ok payload →
      payload.eid ≠ some eid →
      verify_long_lived_token env st tok =
        Except.error
          { status := StatusCode.UNAUTHENTICATED,
            user_msg := genericSessionMsg,
            sys_msg := "Possible token tampering detected. EID mismatch: " ++ eid }) ∧
    (∀ ent, verify_long_lived_token env st tok = Except.ok ent →
      ∃ eid rest payload,
        splitFirstColon tok = some (eid, rest) ∧
        find_entity_by_eid st eid = some ent ∧
        env.verifyLlt rest (env.agree ent.device_id_keypair ent.client_device_id_pub_key)
          = Except.ok payload ∧
        payload.eid = some eid ∧ ent.eid = eid) := by
  constructor
  · intro eid rest payload ent hsplit hfind hverify hne
    simp [verify_long_lived_token, hsplit, hfind, hverify, hne,
      lltErrorResponse, error_response]
  · intro ent h
    unfold verify_long_lived_token at h
    cases hsplit : splitFirstColon tok with
    | none => simp only [hsplit] at h; exact absurd h (by simp)
    | some pr =>
      obtain ⟨eid, rest⟩ := pr
      simp only [hsplit] at h
      cases hfind : find_entity_by_eid st eid with
      | none => simp only [hfind] at h; simp at h
      | some e0 =>
        simp only [hfind] at h
        cases hv : env.verifyLlt rest
            (env.agree e0.device_id_keypair e0.client_device_id_pub_key) with
        | error s => simp only [hv] at h; simp at h
        | ok payload =>
          simp only [hv] at h
          by_cases hpe : payload.eid = some eid
          · rw [if_neg (by simp [hpe])] at h
            have he : e0 = ent := by simpa using h
            subst he
            have hf2 : st.entities.find? (fun e => e.eid == eid) = some e0 := hfind
            have heid : e0.eid = eid := by
              have hp := List.find?_some hf2
              simp at hp
              exact hp
            exact ⟨eid, rest, payload, rfl, hfind, hv, hpe, heid⟩
          · rw [if_pos (by simp [hpe])] at h
            simp at h

/-- Witness for C3: the eid-mismatch rejection on token `e2:L` against the
two-entity store, and the success binding on token `e1:L`. -/
theorem c3_llt_eid_crosscheck_witness :
    verify_long_lived_token envW stW2 "e2:L" =
      Except.error
        { status := StatusCode.UNAUTHENTICATED,
          user_msg := genericSessionMsg,
          sys_msg := "Possible token tampering detected. EID mismatch: " ++ "e2" } ∧
    (∃ eid rest payload,
       splitFirstColon "e1:L" = some (eid, rest) ∧
       find_entity_by_eid stW eid = some entW ∧
       envW.verifyLlt rest (envW.agree entW.device_id_keypair entW.client_device_id_pub_key)
         = Except.ok payload ∧
       payload.eid = some eid ∧ entW.eid = eid) :=
  ⟨(c3_llt_eid_crosscheck envW stW2 "e2:L").1 "e2" "L" { eid := some "e1" } entW2
      (by decide) (by decide) (by decide) (by decide),
   (c3_llt_eid_crosscheck envW stW "e1:L").2 entW (by decide)⟩

/-! ## C4 -/

/-- C4: for every authenticated request whose lowercased platform is not in
`SUPPORTED_PLATFORMS`, each of `StoreEntityToken`, `GetEntityAccessToken`
(on both authentication paths) and `DeleteEntityToken` returns
`UNIMPLEMENTED` and leaves the store unchanged. -/
theorem c4_platform_whitelist (env : Env) (st : VaultState) :
    (∀ (req : StoreEntityTokenRequest) ent,
      validate_request_fields env.isValidPub req.get
        [ReqField.single "long_lived_token", ReqField.single "token",
         ReqField.single "platform", ReqField.single "account_identifier"] = none →
      verify_long_lived_token env st req.long_lived_token = Except.ok ent →
      SUPPORTED_PLATFORMS.contains (strLower req.platform) = false →
      StoreEntityToken env st req =
        (Except.error (error_response (unsupportedPlatformMsg req.platform)
          StatusCode.UNIMPLEMENTED none), st)) ∧
    (∀ (req : GetEntityAccessTokenRequest) ent,
      validate_request_fields env.isValidPub req.get
        [ReqField.alt ["device_id", "long_lived_token"],
         ReqField.single "platform", ReqField.single "account_identifier"] = none →
      req.long_lived_token ≠ "" →
      verify_long_lived_token env st req.long_lived_token = Except.ok ent →
      SUPPORTED_PLATFORMS.contains (strLower req.platform) = false →
      GetEntityAccessToken env st req =
        (Except.error (error_response (unsupportedPlatformMsg req.platform)
          StatusCode.UNIMPLEMENTED none), st)) ∧
    (∀ (req : GetEntityAccessTokenRequest) ent,
      validate_request_fields env.isValidPub req.get
        [ReqField.alt ["device_id", "long_lived_token"],
         ReqField.single "platform", ReqField.single "account_identifier"] = none →
      req.long_lived_token = "" →
      req.device_id ≠ "" →
      find_entity_by_device_id st req.device_id = some ent →
      SUPPORTED_PLATFORMS.contains (strLower req.platform) = false →
      GetEntityAccessToken env st req =
        (Except.error (error_response (unsupportedPlatformMsg req.platform)
          StatusCode.UNIMPLEMENTED none), st)) ∧
    (∀ (req : DeleteEntityTokenRequest) ent,
      validate_request_fields env.isValidPub req.get
        [ReqField.single "long_lived_token", ReqField.single "platform",
         ReqField.single "account_identifier"] = none →
      verify_long_lived_token env st req.long_lived_token = Except.ok ent →
      SUPPORTED_PLATFORMS.contains (strLower req.platform) = false →
      DeleteEntityToken env st req =
        (Except.error (error_response (unsupportedPlatformMsg req.platform)
          StatusCode.UNIMPLEMENTED none), st)) := by
  refine ⟨?_, ?_, ?_, ?_⟩
  · intro req ent hval hllt hplat
    have hnm : strLower req.platform ∉ SUPPORTED_PLATFORMS := by simpa using hplat
    simp [StoreEntityToken, hval, hllt, hplat, hnm]
  · intro req ent hval hne hllt hplat
    have hnm : strLower req.platform ∉ SUPPORTED_PLATFORMS := by simpa using hplat
    simp [GetEntityAccessToken, hval, hne, hllt, hplat, hnm]
  · intro req ent hval heq hne hfind hplat
    have hnm : strLower req.platform ∉ SUPPORTED_PLATFORMS := by simpa using hplat
    simp [GetEntityAccessToken, hval, heq, hne, hfind, hplat, hnm]
  · intro req ent hval hllt hplat
    have hnm : strLower req.platform ∉ SUPPORTED_PLATFORMS := by simpa using hplat
    simp [DeleteEntityToken, hval, hllt, hplat, hnm]

/-- Concrete store request for the unsupported platform `Twitter`. -/
def reqStoreTw : StoreEntityTokenRequest :=
  { long_lived_token := "e1:L", token := "T", platform := "Twitter",
    account_identifier := "a@x" }

/-- Concrete LLT-authenticated get request for platform `Twitter`. -/
def reqGetTwLlt : GetEntityAccessTokenRequest :=
  { device_id := "", long_lived_token := "e1:L", platform := "Twitter",
    account_identifier := "a@x" }

/-- Concrete device-id-authenticated get request for platform `Twitter`. -/
def reqGetTwDev : GetEntityAccessTokenRequest :=
  { device_id := "d1", long_lived_token := "", platform := "Twitter",
    account_identifier := "a@x" }

/-- Concrete delete-token request for platform `Twitter`. -/
def reqDelTw : DeleteEntityTokenRequest :=
  { long_lived_token := "e1:L", platform := "Twitter", account_identifier := "a@x" }

/-- Witness for C4: all four authenticated paths, platform `Twitter`,
return `UNIMPLEMENTED` and leave the store unchanged. -/
theorem c4_platform_whitelist_witness :
    StoreEntityToken envW stW reqStoreTw =
      (Except.error (error_response (unsupportedPlatformMsg reqStoreTw.platform)
        StatusCode.UNIMPLEMENTED none), stW) ∧
    GetEntityAccessToken envW stW reqGetTwLlt =
      (Except.error (error_response (unsupportedPlatformMsg reqGetTwLlt.platform)
        StatusCode.UNIMPLEMENTED none), stW) ∧
    GetEntityAccessToken envW stW reqGetTwDev =
      (Except.error (error_response (unsupportedPlatformMsg reqGetTwDev.platform)
        StatusCode.UNIMPLEMENTED none), stW) ∧
    DeleteEntityToken envW stW reqDelTw =
      (Except.error (error_response (unsupportedPlatformMsg reqDelTw.platform)
        StatusCode.UNIMPLEMENTED none), stW) :=
  ⟨(c4_platform_whitelist envW stW).1 reqStoreTw entW
      (by decide) (by decide) (by decide),
   (c4_platform_whitelist envW stW).2.1 reqGetTwLlt entW
      (by decide) (by decide) (by decide) (by decide),
   (c4_platform_whitelist envW stW).2.2.1 reqGetTwDev entW
      (by decide) (by decide) (by decide) (by decide) (by decide),
   (c4_platform_whitelist envW stW).2.2.2 reqDelTw entW
      (by decide) (by decide) (by decide)⟩

/-! ## C5 -/

/-- C5: `CreateEntity` without an ownership proof: a missing `phone_number`
fails `INVALID_ARGUMENT`; an existing entity under the phone hash fails
`ALREADY_EXISTS` with an empty event trace (so no OTP send call is made);
otherwise the OTP is sent and, on gateway success, the response carries
`requires_ownership_proof = true` with the gateway message and
`next_attempt_timestamp`. -/
theorem c5_create_entity_phase1 (env : Env) (st : VaultState)
    (req : CreateEntityRequest) :
    (req.phone_number = "" →
      CreateEntity env st req =
        (Except.error (error_response "Missing required fields: phone_number"
          StatusCode.INVALID_ARGUMENT none), st, [])) ∧
    (req.phone_number ≠ "" →
      ∀ ent, find_entity_by_phone_hash st (env.hmacHash req.phone_number) = some ent →
        CreateEntity env st req =
          (Except.error (error_response
            ("Entity with phone number `" ++ req.phone_number ++ "` already exists.")
            StatusCode.ALREADY_EXISTS none), st, [])) ∧
    (req.phone_number ≠ "" → req.ownership_proof_response = "" →
      find_entity_by_phone_hash st (env.hmacHash req.phone_number) = none →
      ∀ m ts, env.otpSend req.phone_number = (true, m, ts) →
        CreateEntity env st req =
          (Except.ok { message := m, requires_ownership_proof := true,
                       next_attempt_timestamp := ts },
           st, [Event.otpSent req.phone_number])) := by
  refine ⟨?_, ?_, ?_⟩
  · intro h
    simp [CreateEntity, validate_request_fields, missingFields, invalidPubFields,
      x25519_fields, CreateEntityRequest.get, joinSep, h]
  · intro h ent hfind
    simp [CreateEntity, validate_request_fields, missingFields, invalidPubFields,
      x25519_fields, CreateEntityRequest.get, joinSep, h, hfind]
  · intro h hopr hfind m ts hsend
    simp [CreateEntity, initiate_creation, handle_pow_initialization,
      validate_request_fields, missingFields, invalidPubFields,
      x25519_fields, CreateEntityRequest.get, joinSep, h, hopr, hfind, hsend]

/-- Concrete phase-1 creation request for a fresh phone number. -/
def reqCreateP1 : CreateEntityRequest :=
  { phone_number := "+888", country_code := "", password := "",
    client_publish_pub_key := "", client_device_id_pub_key := "",
    ownership_proof_response := "" }

/-- Concrete phase-1 creation request for the already-registered phone. -/
def reqCreateDup : CreateEntityRequest :=
  { phone_number := "+237", country_code := "", password := "",
    client_publish_pub_key := "", client_device_id_pub_key := "",
    ownership_proof_response := "" }

/-- Concrete creation request with an empty phone number. -/
def reqCreateNoPhone : CreateEntityRequest :=
  { phone_number := "", country_code := "", password := "",
    client_publish_pub_key := "", client_device_id_pub_key := "",
    ownership_proof_response := "" }

/-- Witness for C5 at the concrete fixtures: missing phone, duplicate phone
(no OTP event), and a fresh phone with a successful OTP send. -/
theorem c5_create_entity_phase1_witness :
    CreateEntity envW stW reqCreateNoPhone =
      (Except.error (error_response "Missing required fields: phone_number"
        StatusCode.INVALID_ARGUMENT none), stW, []) ∧
    CreateEntity envW stW reqCreateDup =
      (Except.error (error_response
        ("Entity with phone number `" ++ reqCreateDup.phone_number ++ "` already exists.")
        StatusCode.ALREADY_EXISTS none), stW, []) ∧
    CreateEntity envW stW reqCreateP1 =
      (Except.ok { message := "OTP sent", requires_ownership_proof := true,
                   next_attempt_timestamp := 100 },
       stW, [Event.otpSent reqCreateP1.phone_number]) :=
  ⟨(c5_create_entity_phase1 envW stW reqCreateNoPhone).1 (by decide),
   (c5_create_entity_phase1 envW stW reqCreateDup).2.1 (by decide) entW (by decide),
   (c5_create_entity_phase1 envW stW reqCreateP1).2.2 (by decide) (by decide)
     (by decide) "OTP sent" 100 (by decide)⟩

/-! ## C6 -/

/-- Concrete get request carrying BOTH authenticators. -/
def reqGetBoth : GetEntityAccessTokenRequest :=
  { device_id := "d1", long_lived_token := "e1:L", platform := "gmail",
    account_identifier := "a@x" }

/-- C6 counterexample: a request carrying BOTH `device_id` and
`long_lived_token` is not rejected — it proceeds past validation and
authentication all the way to the token lookup (here `NOT_FOUND` on an
empty token table), so "exactly one of the two authenticators" is not
enforced. -/
theorem c6_counterexample :
    reqGetBoth.device_id ≠ "" ∧ reqGetBoth.long_lived_token ≠ "" ∧
    GetEntityAccessToken envW stW reqGetBoth =
      (Except.error (error_response
        (noTokenFoundMsg reqGetBoth.account_identifier reqGetBoth.platform)
        StatusCode.NOT_FOUND none), stW) := by
  exact ⟨by decide, by decide, by decide⟩

/-- C6 (amended): `GetEntityAccessToken` requires at least one of
`long_lived_token` and `device_id`: with neither it fails
`INVALID_ARGUMENT` naming the alternative pair; when both are supplied the
long-lived token takes precedence and the `device_id` field is ignored (the
outcome is identical to the same request with `device_id` cleared). -/
theorem c6_get_token_auth_fields (env : Env) (st : VaultState)
    (req : GetEntityAccessTokenRequest) :
    (req.device_id = "" → req.long_lived_token = "" → req.platform ≠ "" →
      req.account_identifier ≠ "" →
      GetEntityAccessToken env st req =
        (Except.error (error_response
          "Missing required fields: (device_id or long_lived_token)"
          StatusCode.INVALID_ARGUMENT none), st)) ∧
    (req.long_lived_token ≠ "" →
      GetEntityAccessToken env st req =
        GetEntityAccessToken env st { req with device_id := "" }) := by
  constructor
  · intro hd hl hp ha
    simp [GetEntityAccessToken, validate_request_fields, missingFields,
      invalidPubFields, x25519_fields, GetEntityAccessTokenRequest.get, joinSep,
      hd, hl, hp, ha]
  · intro hl
    simp [GetEntityAccessToken, validate_request_fields, missingFields,
      invalidPubFields, x25519_fields, GetEntityAccessTokenRequest.get, joinSep, hl]

/-- Concrete get request with neither authenticator. -/
def reqGetNone : GetEntityAccessTokenRequest :=
  { device_id := "", long_lived_token := "", platform := "gmail",
    account_identifier := "a@x" }

/-- Witness for C6: rejection with neither authenticator, and `device_id`
irrelevance when the long-lived token is present. -/
theorem c6_get_token_auth_fields_witness :
    GetEntityAccessToken envW stW reqGetNone =
      (Except.error (error_response
        "Missing required fields: (device_id or long_lived_token)"
        StatusCode.INVALID_ARGUMENT none), stW) ∧
    GetEntityAccessToken envW stW reqGetBoth =
      GetEntityAccessToken envW stW { reqGetBoth with device_id := "" } :=
  ⟨(c6_get_token_auth_fields envW stW reqGetNone).1
      (by decide) (by decide) (by decide) (by decide),
   (c6_get_token_auth_fields envW stW reqGetBoth).2 (by decide)⟩

/-! ## C7 -/

/-- `small` occurs as a contiguous substring of `big`. -/
def strContains (big small : String) : Prop :=
  ∃ pre post : List Char, big.data = pre ++ small.data ++ post

/-- Every element of a joined list occurs as a substring of the join. -/
theorem joinSep_contains (sep : String) (l : List String) (x : String) (hx : x ∈ l) :
    ∃ pre post : List Char, (joinSep sep l).data = pre ++ x.data ++ post := by
  induction l with
  | nil => cases hx
  | cons a t ih =>
    cases t with
    | nil =>
      have hxa : x = a := by simpa using hx
      subst hxa
      exact ⟨[], [], by simp [joinSep]⟩
    | cons b t2 =>
      rcases List.mem_cons.mp hx with hxa | hx2
      · subst hxa
        refine ⟨[], (sep ++ joinSep sep (b :: t2)).data, ?_⟩
        simp [joinSep]
      · obtain ⟨pre, post, hp⟩ := ih hx2
        refine ⟨(a ++ sep).data ++ pre, post, ?_⟩
        simp [joinSep, hp]

/-- Wrapping a string that contains `x` with any prefix and suffix preserves
containment. -/
theorem strContains_wrap (a b c x : String)
    (h : ∃ pre post : List Char, b.data = pre ++ x.data ++ post) :
    strContains (a ++ b ++ c) x := by
  obtain ⟨pre, post, hp⟩ := h
  exact ⟨a.data ++ pre, post ++ c.data, by simp [hp]⟩

/-- C7: `DeleteEntity` under a verified long-lived token: while the entity
still owns at least one token row the handler returns `FAILED_PRECONDITION`,
mutates nothing, and its user-visible message contains, for every remaining
row, the `(account_identifier, platform)` pair with the identifier
decrypted; once no rows remain the entity row is deleted and success
returned. -/
theorem c7_delete_entity_precondition (env : Env) (st : VaultState)
    (req : DeleteEntityRequest) (ent : Entity)
    (hv : req.long_lived_token ≠ "")
    (ha : verify_long_lived_token env st req.long_lived_token = Except.ok ent) :
    (fetch_entity_tokens_all st ent ≠ [] →
      (DeleteEntity env st req).2 = st ∧
      ∃ e : ErrorInfo, (DeleteEntity env st req).1 = Except.error e ∧
        e.status = StatusCode.FAILED_PRECONDITION ∧
        ∀ t ∈ fetch_entity_tokens_all st ent,
          strContains e.user_msg
            (pyTokenPairStr (env.decrypt t.account_identifier) t.platform)) ∧
    (fetch_entity_tokens_all st ent = [] →
      DeleteEntity env st req =
        (Except.ok { message := "Entity deleted successfully.", success := true },
         { st with entities := st.entities.eraseP (fun e => e.eid == ent.eid) })) := by
  have hval : validate_request_fields env.isValidPub req.get
      [ReqField.single "long_lived_token"] = none := by
    simp [validate_request_fields, missingFields, invalidPubFields, x25519_fields,
      DeleteEntityRequest.get, hv]
  constructor
  · intro hne
    have hrun : DeleteEntity env st req =
        (Except.error (error_response
          (deleteBlockedMsg (joinSep "; " ((fetch_entity_tokens_all st ent).map (fun t =>
            pyTokenPairStr (env.decrypt t.account_identifier) t.platform))))
          StatusCode.FAILED_PRECONDITION none), st) := by
      simp [DeleteEntity, hval, ha, hne]
    rw [hrun]
    refine ⟨rfl, _, rfl, rfl, ?_⟩
    intro t ht
    have hmem := List.mem_map_of_mem
      (fun t => pyTokenPairStr (env.decrypt t.account_identifier) t.platform) ht
    exact strContains_wrap _ _ _ _ (joinSep_contains "; " _ _ hmem)
  · intro hempty
    simp [DeleteEntity, hval, ha, hempty]

/-- Concrete delete-entity request under the valid token of `e1`. -/
def reqDelEnt : DeleteEntityRequest := { long_lived_token := "e1:L" }

/-- Witness for C7: blocked deletion while the gmail token row exists, and
successful deletion on the token-free store. -/
theorem c7_delete_entity_precondition_witness :
    ((DeleteEntity envW stWtok reqDelEnt).2 = stWtok ∧
     ∃ e : ErrorInfo, (DeleteEntity envW stWtok reqDelEnt).1 = Except.error e ∧
       e.status = StatusCode.FAILED_PRECONDITION ∧
       ∀ t ∈ fetch_entity_tokens_all stWtok entW,
         strContains e.user_msg
           (pyTokenPairStr (envW.decrypt t.account_identifier) t.platform)) ∧
    DeleteEntity envW stW reqDelEnt =
      (Except.ok { message := "Entity deleted successfully.", success := true },
       { stW with entities := stW.entities.eraseP (fun e => e.eid == entW.eid) }) :=
  ⟨(c7_delete_entity_precondition envW stWtok reqDelEnt entW
      (by decide) (by decide)).1 (by decide),
   (c7_delete_entity_precondition envW stW reqDelEnt entW
      (by decide) (by decide)).2 (by decide)⟩

/-! ## C9 -/

/-- Concrete authentication request with the wrong password. -/
def reqAuthBadPw : AuthenticateEntityRequest :=
  { phone_number := "+237", password := "wrong", client_publish_pub_key := "",
    client_device_id_pub_key := "", ownership_proof_response := "" }

/-- Concrete authentication request for an unregistered phone number. -/
def reqAuthUnknown : AuthenticateEntityRequest :=
  { phone_number := "+999", password := "pw", client_publish_pub_key := "",
    client_device_id_pub_key := "", ownership_proof_response := "" }

/-- C9 counterexample: one failing run of `AuthenticateEntity` that fails the
cryptographic password check and one that fails the entity lookup produce
different user-visible messages (and even different status codes), so an
observer can tell the two failure classes apart — the phone-lookup failure
even names the phone number it could not find. -/
theorem c9_counterexample :
    (AuthenticateEntity envW stW reqAuthBadPw).1 =
      Except.error
        { status := StatusCode.UNAUTHENTICATED,
          user_msg := "Incorrect credentials. Please double-check " ++
            "your details and try again.",
          sys_msg := "Incorrect Password provided for phone number +237" } ∧
    (AuthenticateEntity envW stW reqAuthUnknown).1 =
      Except.error
        { status := StatusCode.NOT_FOUND,
          user_msg := "Entity with phone number `+999` not found.",
          sys_msg := "Entity with phone number `+999` not found." } ∧
    exceptUserMsg (AuthenticateEntity envW stW reqAuthBadPw).1 ≠
      exceptUserMsg (AuthenticateEntity envW stW reqAuthUnknown).1 := by
  exact ⟨by decide, by decide, by decide⟩

/-- C9 (amended): within long-lived-token verification the claim holds —
every failing run, whether it failed the record lookup (unknown eid) or a
cryptographic check (bad signature, eid mismatch, malformed envelope),
surfaces the identical `UNAUTHENTICATED` status and generic session-expired
user message, so those failure classes are indistinguishable; but
`AuthenticateEntity` distinguishes an unknown phone number from a wrong
password in its user-visible output. -/
theorem c9_llt_failures_indistinguishable (env : Env) (st : VaultState)
    (tok : String) (e : ErrorInfo)
    (h : verify_long_lived_token env st tok = Except.error e) :
    (e.status = StatusCode.UNAUTHENTICATED ∧ e.user_msg = genericSessionMsg) ∧
    exceptUserMsg (AuthenticateEntity envW stW reqAuthBadPw).1 ≠
      exceptUserMsg (AuthenticateEntity envW stW reqAuthUnknown).1 := by
  refine ⟨?_, by decide⟩
  unfold verify_long_lived_token at h
  cases hsplit : splitFirstColon tok with
  | none =>
    simp only [hsplit] at h
    cases h
    exact ⟨rfl, rfl⟩
  | some pr =>
    obtain ⟨eid, rest⟩ := pr
    simp only [hsplit] at h
    cases hfind : find_entity_by_eid st eid with
    | none =>
      simp only [hfind] at h
      cases h
      exact ⟨rfl, rfl⟩
    | some e0 =>
      simp only [hfind] at h
      cases hv : env.verifyLlt rest
          (env.agree e0.device_id_keypair e0.client_device_id_pub_key) with
      | error s =>
        simp only [hv] at h
        cases h
        exact ⟨rfl, rfl⟩
      | ok payload =>
        simp only [hv] at h
        by_cases hpe : payload.eid = some eid
        · rw [if_neg (by simp [hpe])] at h
          cases h
        · rw [if_pos (by simp [hpe])] at h
          cases h
          exact ⟨rfl, rfl⟩

/-- Witness for C9 on the malformed token `garbage` (no colon). -/
theorem c9_llt_failures_indistinguishable_witness :
    ((lltErrorResponse "not enough values to unpack (expected 2, got 1)").status =
        StatusCode.UNAUTHENTICATED ∧
      (lltErrorResponse "not enough values to unpack (expected 2, got 1)").user_msg =
        genericSessionMsg) ∧
    exceptUserMsg (AuthenticateEntity envW stW reqAuthBadPw).1 ≠
      exceptUserMsg (AuthenticateEntity envW stW reqAuthUnknown).1 :=
  c9_llt_failures_indistinguishable envW stW "garbage"
    (lltErrorResponse "not enough values to unpack (expected 2, got 1)") (by decide)

/-! ## C10 -/

/-- C10: `UpdateEntityToken` has no platform-whitelist branch.  For a valid
device-id-authenticated request whose lowercased platform is unsupported,
run against a store in which (as the other handlers guarantee) every stored
token row carries a supported platform, the handler falls through to the row
lookup and answers `NOT_FOUND` with the no-token message — not
`UNIMPLEMENTED` — leaving the store unchanged. -/
theorem c10_update_token_no_whitelist (env : Env) (st : VaultState)
    (req : UpdateEntityTokenRequest) (ent : Entity)
    (h1 : req.device_id ≠ "") (h2 : req.token ≠ "") (h3 : req.platform ≠ "")
    (h4 : req.account_identifier ≠ "")
    (hfind : find_entity_by_device_id st req.device_id = some ent)
    (hplat : SUPPORTED_PLATFORMS.contains (strLower req.platform) = false)
    (hall : ∀ t ∈ st.tokens, SUPPORTED_PLATFORMS.contains t.platform = true) :
    UpdateEntityToken env st req =
      (Except.error (error_response
        (noTokenFoundMsg req.account_identifier req.platform)
        StatusCode.NOT_FOUND none), st) := by
  have hempty : fetch_entity_tokens st ent req.platform
      (env.hmacHash req.account_identifier) = [] := by
    unfold fetch_entity_tokens
    rw [List.filter_eq_nil_iff]
    intro t ht
    have hplat' : t.platform ≠ req.platform := by
      intro he
      have hg := hall t ht
      simp [SUPPORTED_PLATFORMS] at hg
      have hrp : req.platform = "gmail" := he ▸ hg
      rw [hrp] at hplat
      exact absurd hplat (by decide)
    simp [hplat']
  simp [UpdateEntityToken, validate_request_fields, missingFields, invalidPubFields,
    x25519_fields, UpdateEntityTokenRequest.get, h1, h2, h3, h4, hfind, hempty]

/-- Concrete update request on the unsupported platform `Twitter`. -/
def reqUpdTw : UpdateEntityTokenRequest :=
  { device_id := "d1", token := "T2", platform := "Twitter",
    account_identifier := "a@x" }

/-- Witness for C10: updating a `Twitter` token on the store holding only a
gmail row answers `NOT_FOUND`. -/
theorem c10_update_token_no_whitelist_witness :
    UpdateEntityToken envW stWtok reqUpdTw =
      (Except.error (error_response
        (noTokenFoundMsg reqUpdTw.account_identifier reqUpdTw.platform)
        StatusCode.NOT_FOUND none), stWtok) :=
  c10_update_token_no_whitelist envW stWtok reqUpdTw entW
    (by decide) (by decide) (by decide) (by decide) (by decide) (by decide)
    (by decide)
